import Mathlib

/-!
Shallow embedding of `packages/menu/src/menu.tsx` (chakra-ui menu components).

The file under verification is declarative React composition: each exported
component is embedded as a Lean function from its props (a structure mirroring
the TypeScript props type) to a virtual rendered tree `RNode`.  JSX props
objects become association lists `Attrs` in which a later entry for a key
overrides an earlier one, exactly like the object-spread semantics of
`{...a, k: v}`; `getAttr` reads the effective (last) binding.  The `use-menu`
hooks and `useStyles` come from collaborator modules that are not part of the
reviewed file; they are modelled from the spec as functions that merge an
abstract list of behavior attributes into the caller's props (see the
`Modelled from the spec:` doc comments), and all theorems quantify over those
abstract lists.
-/

set_option autoImplicit false

namespace ChakraMenu

/-- A JSX attribute/prop value: string, boolean, number (opacity, scale,
durations), list of numbers (easing curves), or an opaque event-handler token
(functions such as `onClick`/`onUpdate` are identified by a numeric token). -/
inductive AVal where
  | s (v : String)
  | b (v : Bool)
  | num (v : Rat)
  | nums (v : List Rat)
  | ev (handler : Nat)
deriving DecidableEq, Repr

/-- A JSX props/attribute object, as an association list. Later entries
override earlier ones (object-spread semantics). -/
abbrev Attrs := List (String × AVal)

/-- A rendered virtual-DOM tree: host elements (with attributes, the chakra
`__css` style object, and children), text nodes, and context providers
(which render no host DOM element). -/
inductive RNode where
  | elem (tag : String) (attrs : Attrs) (css : Attrs) (children : List RNode)
  | text (v : String)
  | provider (name : String) (children : List RNode)

/-- Effective value of key `k` in a props object: the last binding wins,
matching JS object-spread. -/
def getAttr (a : Attrs) (k : String) : Option AVal :=
  ((a.filter (fun p => p.1 == k)).getLast?).map Prod.snd

/-- Effective string value of key `k`. -/
def getAttrS (a : Attrs) (k : String) : Option String :=
  match getAttr a k with
  | some (AVal.s v) => some v
  | _ => none

/-- `true` iff the props object has some binding for key `k`. -/
def attrsHasKey (a : Attrs) (k : String) : Bool :=
  a.any (fun p => p.1 == k)

/-- Tag of a rendered element (text and providers have none). -/
def RNode.tagOf : RNode → String
  | RNode.elem tag _ _ _ => tag
  | _ => ("")

/-- Attribute bindings of a rendered element. -/
def RNode.attrsOf : RNode → Attrs
  | RNode.elem _ attrs _ _ => attrs
  | _ => []

/-- Children of a rendered element or provider. -/
def RNode.childrenOf : RNode → List RNode
  | RNode.elem _ _ _ cs => cs
  | RNode.text _ => []
  | RNode.provider _ cs => cs

mutual

/-- `true` iff some element anywhere in the tree carries an attribute
named `k`. -/
def RNode.hasKey (k : String) : RNode → Bool
  | RNode.elem _ attrs _ cs => attrsHasKey attrs k || RNode.listHasKey k cs
  | RNode.text _ => false
  | RNode.provider _ cs => RNode.listHasKey k cs

/-- `RNode.hasKey` over a list of children. -/
def RNode.listHasKey (k : String) : List RNode → Bool
  | [] => false
  | c :: cs => RNode.hasKey k c || RNode.listHasKey k cs

end

mutual

/-- `true` iff some element anywhere in the tree has effective attribute
value `v` at key `k`: the binding survived every later spread. -/
def RNode.forwards (k : String) (v : AVal) : RNode → Bool
  | RNode.elem _ attrs _ cs =>
      decide (getAttr attrs k = some v) || RNode.listForwards k v cs
  | RNode.text _ => false
  | RNode.provider _ cs => RNode.listForwards k v cs

/-- `RNode.forwards` over a list of children. -/
def RNode.listForwards (k : String) (v : AVal) : List RNode → Bool
  | [] => false
  | c :: cs => RNode.forwards k v c || RNode.listForwards k v cs

end

/-- `cx` from `@chakra-ui/utils`: drop undefined/falsy class names and join
the rest with a space. -/
def cx (classNames : List (Option String)) : String :=
  String.intercalate (" ") ((classNames.filterMap id).filter (fun v => !(v == "")))

/-- JS truthiness of an optional string prop (`undefined` and `""` are
falsy). -/
def truthy : Option String → Bool
  | none => false
  | some v => !(v == "")

/-- A caller-supplied `className` as a props binding (absent when the caller
passed none). -/
def clsAttr : Option String → Attrs
  | none => []
  | some v => [(("className"), AVal.s v)]

/-- The multi-style object returned by `useMultiStyleConfig("Menu", props)`
and read back through `useStyles()`; one themeable style object per part. -/
structure MenuStyles where
  button : Attrs := []
  list : Attrs := []
  item : Attrs := []
  groupTitle : Attrs := []
  command : Attrs := []
  divider : Attrs := []
deriving DecidableEq, Repr

/-- The value produced by `useMenu`/`useMenuContext`.  `onClose`,
`forceUpdate` and `onTransitionEnd` are functions in the source; they are
identified here by opaque numeric tokens. -/
structure MenuContext where
  isOpen : Bool := false
  onClose : Nat := 0
  forceUpdate : Option Nat := none
  onTransitionEnd : Nat := 0
deriving DecidableEq, Repr

/-- The argument object `{isOpen, onClose, forceUpdate}` passed to a
render-prop child of `Menu`. -/
structure MenuRenderArg where
  isOpen : Bool
  onClose : Nat
  forceUpdate : Option Nat
deriving DecidableEq, Repr

/-- `MaybeRenderProp`: the `children` of `Menu` are either plain nodes or a
function of the render argument. -/
inductive MaybeRenderProp where
  | nodes (ns : List RNode)
  | fn (f : MenuRenderArg → List RNode)

/-- `runIfFn` from `@chakra-ui/utils`: call function children with the
argument, return non-function children as given. -/
def runIfFn (children : MaybeRenderProp) (arg : MenuRenderArg) : List RNode :=
  match children with
  | MaybeRenderProp.nodes ns => ns
  | MaybeRenderProp.fn f => f arg

/-- Props as seen by the `use-menu` item/list/option hooks: the caller's
remaining attribute bindings plus the children passed along. -/
structure HookProps where
  attrs : Attrs := []
  children : List RNode := []

/-- Modelled from the spec: `useMenuButton` (from the out-of-scope `use-menu`
module) returns the caller's props spread first, with the hook's behavior
props (id, aria wiring, event handlers) merged after them; `injected`
stands for those behavior props. -/
def useMenuButton (injected : Attrs) (rest : Attrs) : Attrs :=
  rest ++ injected

/-- Modelled from the spec: `useMenuList` (out-of-scope `use-menu` module)
returns the caller's props with behavior props merged in, preserving the
caller's standard attributes and children. -/
def useMenuList (injected : Attrs) (p : HookProps) : HookProps :=
  { p with attrs := p.attrs ++ injected }

/-- Modelled from the spec: `useMenuPositioner` (out-of-scope `use-menu`
module) produces the positioning props for the wrapper div. -/
def useMenuPositioner (injected : Attrs) : Attrs :=
  injected

/-- Modelled from the spec: `useMenuItem` (out-of-scope `use-menu` module)
consumes the disabled/focusable flags and returns the remaining caller
props with behavior props merged after them. -/
def useMenuItem (injected : Attrs) (p : HookProps) : HookProps :=
  { p with attrs := p.attrs ++ injected }

/-- Modelled from the spec: `useMenuOption` (out-of-scope `use-menu` module)
consumes the checkable-option flags (`isChecked`, `value`, `type`) and
returns the remaining caller props with behavior props merged after them. -/
def useMenuOption (injected : Attrs) (p : HookProps) : HookProps :=
  { p with attrs := p.attrs ++ injected }

/-- Modelled from the spec: `useMenuOptionGroup` (out-of-scope `use-menu`
module) consumes `value`/`defaultValue`/`onChange`/`type` and returns the
remaining props, with the children wired for checked state. -/
def useMenuOptionGroup (injected : Attrs) (p : HookProps) : HookProps :=
  { p with attrs := p.attrs ++ injected }

mutual

/-- Number of host DOM elements in the tree (providers and text contribute
none of their own). -/
def RNode.elemCount : RNode → Nat
  | RNode.elem _ _ _ cs => 1 + RNode.listElemCount cs
  | RNode.text _ => 0
  | RNode.provider _ cs => RNode.listElemCount cs

/-- `RNode.elemCount` summed over a list. -/
def RNode.listElemCount : List RNode → Nat
  | [] => 0
  | c :: cs => RNode.elemCount c + RNode.listElemCount cs

end

/-- `Menu`: provides context and styles; renders no DOM node of its own.
`useMenu`'s result is the abstract `ctx`; children are run through
`runIfFn` with `{isOpen, onClose, forceUpdate}` taken from the context. -/
def Menu (ctx : MenuContext) (children : MaybeRenderProp) : RNode :=
  RNode.provider ("MenuProvider")
    [RNode.provider ("StylesProvider")
      (runIfFn children
        { isOpen := ctx.isOpen, onClose := ctx.onClose, forceUpdate := ctx.forceUpdate })]

/-- The `__css` base of `StyledMenuButton`. -/
def styledMenuButtonBaseCss : Attrs :=
  [(("display"), AVal.s ("inline-flex")), (("appearance"), AVal.s ("none")),
   (("alignItems"), AVal.s ("center")), (("outline"), AVal.num 0),
   (("transition"), AVal.s ("all 250ms"))]

/-- `StyledMenuButton`: a chakra.button that spreads its props and merges the
base css with `styles.button`. -/
def StyledMenuButton (styles : MenuStyles) (props : Attrs) (children : List RNode) : RNode :=
  RNode.elem ("button") props (styledMenuButtonBaseCss ++ styles.button) children

/-- Props of `MenuButton` (and other button-like components): the semantic
fields destructured by the component, plus `rest`, the remaining standard
attribute bindings. -/
structure MenuButtonProps where
  className : Option String := none
  children : List RNode := []
  asComp : Option String := none
  rest : Attrs := []

/-- The pointer-events-none flex span `MenuButton` wraps its children in
(css-styled, per the source). -/
def menuButtonInnerSpan (children : List RNode) : RNode :=
  RNode.elem ("span") [] [(("pointerEvents"), AVal.s ("none")), (("flex"), AVal.s ("1 1 auto"))]
    children

/-- `MenuButton`: runs the remaining props through `useMenuButton`, appends
the concatenated className, and renders either the `as` component or
`StyledMenuButton`, wrapping children in the inner span. -/
def MenuButton (styles : MenuStyles) (injected : Attrs) (p : MenuButtonProps) : RNode :=
  let buttonProps := useMenuButton injected (p.rest ++ clsAttr p.className)
  let attrs := buttonProps ++
    [(("className"), AVal.s (cx [some ("chakra-menu__menu-button"), p.className]))]
  let inner := [menuButtonInnerSpan p.children]
  match p.asComp with
  | none => StyledMenuButton styles attrs inner
  | some tag => RNode.elem tag attrs [] inner

/-- The `motionVariants` of `MenuList`: framer-motion variant definitions,
with nested objects flattened to dotted keys. -/
def motionVariants : List (String × Attrs) :=
  [(("enter"),
     [(("visibility"), AVal.s ("visible")), (("opacity"), AVal.num 1),
      (("scale"), AVal.num 1), (("transition.duration"), AVal.num (2/10)),
      (("transition.ease"), AVal.nums [4/10, 0, 2/10, 1])]),
   (("exit"),
     [(("transitionEnd.visibility"), AVal.s ("hidden")), (("opacity"), AVal.num 0),
      (("scale"), AVal.num (8/10)), (("transition.duration"), AVal.num (1/10)),
      (("transition.easings"), AVal.s ("easeOut"))])]

/-- Props of `MenuList`. -/
structure MenuListProps where
  className : Option String := none
  children : List RNode := []
  rest : Attrs := []

/-- The `__css={{ zIndex: styles.list?.zIndex }}` of the positioner div. -/
def zIndexCss (styles : MenuStyles) : Attrs :=
  match getAttr styles.list ("zIndex") with
  | some v => [(("zIndex"), v)]
  | none => []

/-- `MenuList`: positioner div wrapping the framer-motion list, whose
`animate` prop is `"enter"` when the context is open and `"exit"` otherwise,
with `initial={false}` and the `motionVariants`. -/
def MenuList (styles : MenuStyles) (ctx : MenuContext) (injList injPositioner : Attrs)
    (p : MenuListProps) : RNode :=
  let listProps := useMenuList injList { attrs := p.rest ++ clsAttr p.className, children := p.children }
  let positionerProps := useMenuPositioner injPositioner
  let motionAttrs := listProps.attrs ++
    [(("onUpdate"), AVal.ev ctx.onTransitionEnd),
     (("className"), AVal.s (cx [some ("chakra-menu__menu-list"), getAttrS listProps.attrs ("className")])),
     (("variants"), AVal.s ("motionVariants")),
     (("initial"), AVal.b false),
     (("animate"), AVal.s (if ctx.isOpen then ("enter") else ("exit")))]
  RNode.elem ("div") positionerProps (zIndexCss styles)
    [RNode.elem ("motion.div") motionAttrs ([(("outline"), AVal.num 0)] ++ styles.list)
      listProps.children]

/-- The `buttonStyles` base of `StyledMenuItem`. -/
def styledMenuItemBaseCss : Attrs :=
  [(("textDecoration"), AVal.s ("none")), (("color"), AVal.s ("inherit")),
   (("userSelect"), AVal.s ("none")), (("display"), AVal.s ("flex")),
   (("width"), AVal.s ("100%")), (("alignItems"), AVal.s ("center")),
   (("textAlign"), AVal.s ("left")), (("flex"), AVal.s ("0 0 auto")),
   (("outline"), AVal.num 0)]

/-- The `type={btnType}` binding: present exactly when `btnType` is not
undefined. -/
def typeBinding : Option String → Attrs
  | some t => [(("type"), AVal.s t)]
  | none => []

/-- JS truthiness of the `as` prop read from the props object. -/
def asTruthiness : Option String → Bool
  | some t => !(t == (""))
  | none => false

/-- `StyledMenuItem`: destructures `type` from its props; given an `as`
component it uses the supplied type if present (else no type, to avoid
invalid html), else falls back to `"button"`. -/
def StyledMenuItem (styles : MenuStyles) (props : Attrs) (children : List RNode) : RNode :=
  let typeProp := getAttrS props ("type")
  let rest := props.filter (fun q => !(q.1 == ("type")))
  let asProp := getAttrS rest ("as")
  let asTruthy := asTruthiness asProp
  let btnType : Option String := if asTruthy then typeProp else some ("button")
  RNode.elem (if asTruthy then asProp.getD ("button") else ("button"))
    (typeBinding btnType ++ rest.filter (fun q => !(q.1 == ("as"))))
    (styledMenuItemBaseCss ++ styles.item)
    children

/-- Props of `MenuItem`: semantic options (`icon`, `iconSpacing`, `command`)
plus className, children and the remaining standard attributes.  The
disabled/focusable flags are consumed by `useMenuItem` and do not reach the
markup, so they are not represented. -/
structure MenuItemProps where
  icon : Option RNode := none
  iconSpacing : Option AVal := none
  command : Option String := none
  className : Option String := none
  children : List RNode := []
  rest : Attrs := []

/-- `MenuCommand` props. -/
structure MenuCommandProps where
  className : Option String := none
  children : List RNode := []
  rest : Attrs := []

/-- `MenuCommand`: chakra.span that spreads its props first and then sets
the literal class `chakra-menu__command`. -/
def MenuCommand (styles : MenuStyles) (p : MenuCommandProps) : RNode :=
  RNode.elem ("span")
    ((p.rest ++ clsAttr p.className) ++ [(("className"), AVal.s ("chakra-menu__command"))])
    styles.command
    p.children

/-- `MenuIcon` props. -/
structure MenuIconProps where
  className : Option String := none
  children : List RNode := []
  rest : Attrs := []

/-- `React.isValidElement`: true exactly for host elements. -/
def isValidElement : RNode → Bool
  | RNode.elem _ _ _ _ => true
  | _ => false

/-- The message `React.Children.only` throws with. -/
def reactOnlyError : String :=
  "React.Children.only expected to receive a single React element child."

/-- `React.Children.only`: succeeds exactly on a single valid element
child; otherwise it throws. -/
def Children.only : List RNode → Except String RNode
  | [c] => if isValidElement c then Except.ok c else Except.error reactOnlyError
  | _ => Except.error reactOnlyError

/-- `React.cloneElement(child, {focusable, "aria-hidden", className})` as
used by `MenuIcon`: the new props are merged after the child's own. -/
def cloneWithIconProps (child : RNode) : RNode :=
  match child with
  | RNode.elem tag attrs css cs =>
      RNode.elem tag
        (attrs ++
          [(("focusable"), AVal.s ("false")), (("aria-hidden"), AVal.b true),
           (("className"), AVal.s (cx [some ("chakra-menu__icon"), getAttrS attrs ("className")]))])
        css cs
  | other => other

/-- `MenuIcon`: requires exactly one valid element child (via
`React.Children.only`), clones it with the icon props, and wraps it in a
flex-shrink-0 span carrying the wrapper class. -/
def MenuIcon (p : MenuIconProps) : Except String RNode := do
  let child ← Children.only p.children
  let cloneList := if isValidElement child then [cloneWithIconProps child] else []
  Except.ok (RNode.elem ("span")
    ([(("className"), AVal.s (cx [some ("chakra-menu__icon-wrapper"), p.className]))] ++ p.rest)
    [(("flexShrink"), AVal.num 0)]
    cloneList)

/-- The pointer-events-none flex-1 span `MenuItem` conditionally wraps its
children in. -/
def menuItemWrapSpan (children : List RNode) : RNode :=
  RNode.elem ("span")
    [(("pointerEvents"), AVal.s ("none")), (("flex"), AVal.s ("1"))] [] children

/-- `MenuItem`: wraps children in a pointer-events-none flex-1 span when an
icon or command is truthy, renders the icon through `MenuIcon` and the
command through `MenuCommand`, and delegates to `StyledMenuItem` with the
concatenated className. -/
def MenuItem (styles : MenuStyles) (injected : Attrs) (p : MenuItemProps) :
    Except String RNode := do
  let iconSpacing := p.iconSpacing.getD (AVal.s ("0.75rem"))
  let menuItemProps := useMenuItem injected { attrs := p.rest ++ clsAttr p.className }
  let shouldWrap := p.icon.isSome || truthy p.command
  let wrapped :=
    if shouldWrap then [menuItemWrapSpan p.children] else p.children
  let iconPart ← match p.icon with
    | some i => do
        let iconProps : MenuIconProps :=
          { children := [i]
            rest := [(("fontSize"), AVal.s ("0.8em")), (("marginEnd"), iconSpacing)] }
        let ic ← MenuIcon iconProps
        Except.ok [ic]
    | none => Except.ok ([] : List RNode)
  let commandPart :=
    if truthy p.command then
      [MenuCommand styles { children := [RNode.text (p.command.getD (""))] }]
    else []
  Except.ok (StyledMenuItem styles
    (menuItemProps.attrs ++
      [(("className"),
        AVal.s (cx [some ("chakra-menu__menuitem"), getAttrS menuItemProps.attrs ("className")]))])
    (iconPart ++ wrapped ++ commandPart))

/-- The `points` of `CheckIcon`'s polygon. -/
def checkIconPoints : String :=
  "5.5 11.9993304 14 3.49933039 12.5 2 5.5 8.99933039 1.5 4.9968652 0 6.49933039"

/-- `CheckIcon`: the built-in check-mark svg, spreading its props after the
fixed viewBox/width/height. -/
def CheckIcon (props : Attrs) : RNode :=
  RNode.elem ("svg")
    ([(("viewBox"), AVal.s ("0 0 14 14")), (("width"), AVal.s ("1em")),
      (("height"), AVal.s ("1em"))] ++ props)
    []
    [RNode.elem ("polygon")
      [(("fill"), AVal.s ("currentColor")), (("points"), AVal.s checkIconPoints)] [] []]

/-- Props of `MenuItemOption`: the checkable-option flag `isChecked` plus
the `MenuItem`-style options. -/
structure MenuItemOptionProps where
  icon : Option RNode := none
  iconSpacing : Option AVal := none
  isChecked : Bool := false
  className : Option String := none
  children : List RNode := []
  rest : Attrs := []

/-- `MenuItemOption`: always renders a `MenuIcon` wrapper (opacity 1 when
checked, 0 otherwise) holding the caller's icon or the built-in
`CheckIcon`, followed by a flex-1 span with the option children, inside a
`StyledMenuItem`. -/
def MenuItemOption (styles : MenuStyles) (injected : Attrs) (p : MenuItemOptionProps) :
    Except String RNode := do
  let iconSpacing := p.iconSpacing.getD (AVal.s ("0.75rem"))
  let optionProps := useMenuOption injected
    { attrs := p.rest ++ clsAttr p.className, children := p.children }
  let innerIcon := match p.icon with
    | some i => i
    | none => CheckIcon []
  let iconProps : MenuIconProps :=
    { children := [innerIcon]
      rest := [(("fontSize"), AVal.s ("0.8em")), (("marginEnd"), iconSpacing),
               (("opacity"), AVal.num (if p.isChecked then 1 else 0))] }
  let ic ← MenuIcon iconProps
  Except.ok (StyledMenuItem styles
    (optionProps.attrs ++
      [(("className"), AVal.s (cx [some ("chakra-menu__menuitem-option"), p.className]))])
    [ic, RNode.elem ("span") [(("flex"), AVal.s ("1"))] [] optionProps.children])

/-- `MenuGroup` props. -/
structure MenuGroupProps where
  title : Option String := none
  className : Option String := none
  children : List RNode := []
  rest : Attrs := []

/-- `MenuGroup`: a div with the literal class `chakra-menu__group` and the
literal `role="group"`; the title paragraph (rendered only when the title is
truthy) carries the concatenated title class and the remaining props. -/
def MenuGroup (styles : MenuStyles) (p : MenuGroupProps) : RNode :=
  let titleClassName := cx [some ("chakra-menu__group__title"), p.className]
  RNode.elem ("div")
    [(("className"), AVal.s ("chakra-menu__group")), (("role"), AVal.s ("group"))]
    []
    ((if truthy p.title then
        [RNode.elem ("p")
          ([(("className"), AVal.s titleClassName)] ++ p.rest)
          styles.groupTitle
          [RNode.text (p.title.getD (""))]]
      else []) ++ p.children)

/-- `MenuOptionGroup` props (`value`/`defaultValue`/`onChange` are consumed
by `useMenuOptionGroup` and not represented). -/
structure MenuOptionGroupProps where
  title : Option String := none
  className : Option String := none
  children : List RNode := []
  rest : Attrs := []

/-- `MenuOptionGroup`: runs the remaining props through
`useMenuOptionGroup` and delegates to `MenuGroup` with the concatenated
option-group class. -/
def MenuOptionGroup (styles : MenuStyles) (injected : Attrs) (p : MenuOptionGroupProps) : RNode :=
  let ownProps := useMenuOptionGroup injected { attrs := p.rest, children := p.children }
  MenuGroup styles
    { title := p.title,
      className := some (cx [some ("chakra-menu__option-group"), p.className]),
      children := ownProps.children,
      rest := ownProps.attrs }

/-- `MenuDivider` props. -/
structure MenuDividerProps where
  className : Option String := none
  rest : Attrs := []

/-- `MenuDivider`: an hr with literal `role="separator"` and
`aria-orientation="horizontal"`, the concatenated divider class, and the
remaining props spread after them. -/
def MenuDivider (styles : MenuStyles) (p : MenuDividerProps) : RNode :=
  RNode.elem ("hr")
    ([(("role"), AVal.s ("separator")), (("aria-orientation"), AVal.s ("horizontal")),
      (("className"), AVal.s (cx [some ("chakra-menu__divider"), p.className]))] ++ p.rest)
    styles.divider
    []

/-! Helper lemmas about effective attribute lookup under object-spread. -/

theorem filter_key_nil {a : Attrs} {k : String} (h : attrsHasKey a k = false) :
    a.filter (fun q => q.1 == k) = [] := by
  rw [List.filter_eq_nil_iff]
  intro q hq
  simp only [attrsHasKey, List.any_eq_false] at h
  simpa using h q hq

theorem filter_keep_all {a : Attrs} {k : String} (h : attrsHasKey a k = false) :
    a.filter (fun q => !(q.1 == k)) = a := by
  rw [List.filter_eq_self]
  intro q hq
  simp only [attrsHasKey, List.any_eq_false] at h
  simpa using h q hq

theorem getAttr_append_left {a b : Attrs} {k : String} (h : attrsHasKey b k = false) :
    getAttr (a ++ b) k = getAttr a k := by
  unfold getAttr
  rw [List.filter_append, filter_key_nil h, List.append_nil]

theorem getAttr_none_of_no_key {a : Attrs} {k : String} (h : attrsHasKey a k = false) :
    getAttr a k = none := by
  unfold getAttr
  rw [filter_key_nil h]
  rfl

theorem getAttr_append_right {a b : Attrs} {k : String} {v : AVal} (h : getAttr b k = some v) :
    getAttr (a ++ b) k = some v := by
  have hne : b.filter (fun q => q.1 == k) ≠ [] := by
    intro hnil
    unfold getAttr at h
    rw [hnil] at h
    simp at h
  unfold getAttr at h ⊢
  rw [List.filter_append, List.getLast?_append_of_ne_nil _ hne]
  exact h

theorem getAttr_filter_other {a : Attrs} {k k2 : String} (h : (k == k2) = false) :
    getAttr (a.filter (fun q => !(q.1 == k2))) k = getAttr a k := by
  unfold getAttr
  rw [List.filter_filter]
  have hsame : List.filter (fun q => q.1 == k && !(q.1 == k2)) a
      = List.filter (fun q => (q.1 == k : Bool)) a := by
    apply List.filter_congr
    intro q hq
    by_cases hk : q.1 = k
    · simp [hk, h]
    · simp [hk]
  rw [hsame]

theorem getAttrS_filter_other {a : Attrs} {k k2 : String} (h : (k == k2) = false) :
    getAttrS (a.filter (fun q => !(q.1 == k2))) k = getAttrS a k := by
  unfold getAttrS
  rw [getAttr_filter_other h]

theorem attrsHasKey_filter_not {a : Attrs} {k : String} :
    attrsHasKey (a.filter (fun q => !(q.1 == k))) k = false := by
  simp only [attrsHasKey, List.any_eq_false]
  intro q hq
  have := List.of_mem_filter hq
  simpa using this

theorem attrsHasKey_append {a b : Attrs} {k : String} :
    attrsHasKey (a ++ b) k = (attrsHasKey a k || attrsHasKey b k) := by
  simp [attrsHasKey]

theorem attrsHasKey_clsAttr {c : Option String} {k : String} (h : (("className") == k) = false) :
    attrsHasKey (clsAttr c) k = false := by
  cases c with
  | none => rfl
  | some v =>
      simp only [clsAttr, attrsHasKey, List.any_cons, List.any_nil, Bool.or_false]
      exact h

theorem attrsHasKey_nil {k : String} : attrsHasKey ([] : Attrs) k = false := rfl

theorem attrsHasKey_cons {x : String × AVal} {a : Attrs} {k : String} :
    attrsHasKey (x :: a) k = ((x.1 == k) || attrsHasKey a k) := by
  simp [attrsHasKey]

theorem attrsHasKey_filter_of_false {a : Attrs} {p : String × AVal → Bool} {k : String}
    (h : attrsHasKey a k = false) : attrsHasKey (a.filter p) k = false := by
  simp only [attrsHasKey, List.any_eq_false] at h ⊢
  intro q hq
  exact h q (List.mem_of_mem_filter hq)

theorem attrsHasKey_typeBinding {o : Option String} {k : String}
    (h : (("type") == k) = false) : attrsHasKey (typeBinding o) k = false := by
  cases o with
  | none => rfl
  | some t =>
      simp only [typeBinding, attrsHasKey, List.any_cons, List.any_nil, Bool.or_false]
      exact h

theorem forwards_of_getAttr {tag : String} {attrs css : Attrs} {cs : List RNode}
    {k : String} {v : AVal} (h : getAttr attrs k = some v) :
    RNode.forwards k v (RNode.elem tag attrs css cs) = true := by
  simp [RNode.forwards, h]

theorem listHasKey_append {k : String} {a b : List RNode} :
    RNode.listHasKey k (a ++ b) = (RNode.listHasKey k a || RNode.listHasKey k b) := by
  induction a with
  | nil => simp [RNode.listHasKey]
  | cons x xs ih => simp [RNode.listHasKey, ih, Bool.or_assoc]

end ChakraMenu

namespace ChakraMenu

/-! Further helper lemmas used by the claim theorems. -/

theorem getAttrS_rest_cls {rest : Attrs} {cls : Option String} {inj : Attrs}
    (h1 : attrsHasKey rest ("className") = false)
    (h2 : attrsHasKey inj ("className") = false) :
    getAttrS ((rest ++ clsAttr cls) ++ inj) ("className") = cls := by
  unfold getAttrS
  rw [getAttr_append_left h2]
  cases cls with
  | none =>
      rw [show clsAttr none = ([] : Attrs) from rfl, List.append_nil,
        getAttr_none_of_no_key h1]
  | some c =>
      rw [getAttr_append_right
        (show getAttr (clsAttr (some c)) ("className") = some (AVal.s c) from rfl)]

theorem getAttr_append_cls {a : Attrs} {c : String} :
    getAttr (a ++ [(("className"), AVal.s c)]) ("className") = some (AVal.s c) :=
  getAttr_append_right rfl

theorem getAttrS_append_cls {a : Attrs} {c : String} :
    getAttrS (a ++ [(("className"), AVal.s c)]) ("className") = some c := by
  unfold getAttrS
  rw [getAttr_append_cls]

theorem getAttrS_cons_cls {a : Attrs} {c : String}
    (h : attrsHasKey a ("className") = false) :
    getAttrS ((("className"), AVal.s c) :: a) ("className") = some c := by
  unfold getAttrS
  rw [show ((("className"), AVal.s c) :: a)
      = [(("className"), AVal.s c)] ++ a from rfl, getAttr_append_left h]
  rfl

theorem getAttrS_motion_tail {a : Attrs} {v1 : AVal} {c : String} {v3 v4 v5 : AVal} :
    getAttrS (a ++ [(("onUpdate"), v1), (("className"), AVal.s c), (("variants"), v3),
      (("initial"), v4), (("animate"), v5)]) ("className") = some c := by
  unfold getAttrS
  rw [getAttr_append_right (show getAttr [(("onUpdate"), v1), (("className"), AVal.s c),
    (("variants"), v3), (("initial"), v4), (("animate"), v5)] ("className")
    = some (AVal.s c) from rfl)]

theorem getAttr_styled_attrs {b : Option String} {X : Attrs} {k : String} {v : AVal}
    (h : getAttr X k = some v) (hty : (k == ("type")) = false)
    (has : (k == ("as")) = false) :
    getAttr (typeBinding b ++
      ((X.filter (fun q => !(q.1 == ("type")))).filter (fun q => !(q.1 == ("as"))))) k
      = some v := by
  apply getAttr_append_right
  rw [getAttr_filter_other has, getAttr_filter_other hty]
  exact h

theorem listForwards_head {k : String} {v : AVal} {c : RNode} {cs : List RNode}
    (h : RNode.forwards k v c = true) :
    RNode.listForwards k v (c :: cs) = true := by
  simp [RNode.listForwards, h]

theorem forwards_child {tag : String} {attrs css : Attrs} {cs : List RNode}
    {k : String} {v : AVal} (h : RNode.listForwards k v cs = true) :
    RNode.forwards k v (RNode.elem tag attrs css cs) = true := by
  simp [RNode.forwards, h]

theorem getAttr_append_cls_left {a : Attrs} {k : String} {v0 : AVal}
    (h : ¬ k = ("className")) :
    getAttr (a ++ [(("className"), v0)]) k = getAttr a k :=
  getAttr_append_left (by
    simp [attrsHasKey_cons, attrsHasKey_nil]
    exact Ne.symm h)

theorem getAttr_motion_tail_left {a : Attrs} {k : String} {v1 v2 v3 v4 v5 : AVal}
    (h1 : ¬ k = ("onUpdate")) (h2 : ¬ k = ("className")) (h3 : ¬ k = ("variants"))
    (h4 : ¬ k = ("initial")) (h5 : ¬ k = ("animate")) :
    getAttr (a ++ [(("onUpdate"), v1), (("className"), v2), (("variants"), v3),
      (("initial"), v4), (("animate"), v5)]) k = getAttr a k :=
  getAttr_append_left (by
    simp [attrsHasKey_cons, attrsHasKey_nil]
    exact ⟨Ne.symm h1, Ne.symm h2, Ne.symm h3, Ne.symm h4, Ne.symm h5⟩)

/-! Claim theorems. -/

/-- C1, counterexample: the claim says every non-semantic standard attribute is forwarded for MenuGroup whether or not a title is given; with no title, MenuGroup drops the extra attribute bindings entirely (they would go on the title paragraph, which is not rendered). -/
theorem menuGroup_without_title_drops_attrs :
    getAttr (({ rest := [(("data-testid"), AVal.s ("x"))] } : MenuGroupProps).rest)
      ("data-testid") = some (AVal.s ("x")) ∧
    MenuGroup { } { rest := [(("data-testid"), AVal.s ("x"))] } =
      RNode.elem ("div")
        [(("className"), AVal.s ("chakra-menu__group")), (("role"), AVal.s ("group"))]
        [] [] ∧
    RNode.forwards ("data-testid") (AVal.s ("x"))
      (MenuGroup { } { rest := [(("data-testid"), AVal.s ("x"))] }) = false :=
  ⟨rfl, rfl, rfl⟩

/-- C1 (amended): for every exposed component, each standard element attribute binding that is not consumed as a semantic option (and is not one of the keys the component itself sets afterwards: className, type/as for item-like components, the framer-motion props for MenuList) is forwarded as the effective value onto an element of the rendered output, assuming the hook-injected behavior props do not collide; for MenuGroup (and MenuOptionGroup) this holds when a truthy title is given, the titleless case being the counterexample. -/
theorem standard_attrs_forwarded_except_titleless_group (styles : MenuStyles)
    (injected injPositioner : Attrs) (ctx : MenuContext) (k : String) (v : AVal)
    (props : Attrs) (children : List RNode)
    (pBtn : MenuButtonProps) (pList : MenuListProps) (pItem : MenuItemProps)
    (pOpt : MenuItemOptionProps) (pCmd : MenuCommandProps) (pIcon : MenuIconProps)
    (pOptGrp : MenuOptionGroupProps) (pGrp : MenuGroupProps) (pDiv : MenuDividerProps) :
    (getAttr props k = some v →
      RNode.forwards k v (StyledMenuButton styles props children) = true) ∧
    (getAttr pBtn.rest k = some v → ¬ k = ("className") → attrsHasKey injected k = false →
      RNode.forwards k v (MenuButton styles injected pBtn) = true) ∧
    (getAttr pList.rest k = some v → attrsHasKey injected k = false →
      ¬ k = ("onUpdate") → ¬ k = ("className") → ¬ k = ("variants") →
      ¬ k = ("initial") → ¬ k = ("animate") →
      RNode.forwards k v (MenuList styles ctx injected injPositioner pList) = true) ∧
    (getAttr pItem.rest k = some v → ¬ k = ("className") → ¬ k = ("type") →
      ¬ k = ("as") → attrsHasKey injected k = false →
      (∀ i, pItem.icon = some i → isValidElement i = true) →
      ∃ t, MenuItem styles injected pItem = Except.ok t ∧
        RNode.forwards k v t = true) ∧
    (getAttr pOpt.rest k = some v → ¬ k = ("className") → ¬ k = ("type") →
      ¬ k = ("as") → attrsHasKey injected k = false →
      (∀ i, pOpt.icon = some i → isValidElement i = true) →
      ∃ t, MenuItemOption styles injected pOpt = Except.ok t ∧
        RNode.forwards k v t = true) ∧
    (getAttr pCmd.rest k = some v → ¬ k = ("className") →
      RNode.forwards k v (MenuCommand styles pCmd) = true) ∧
    (getAttr pIcon.rest k = some v →
      ∀ t, MenuIcon pIcon = Except.ok t → RNode.forwards k v t = true) ∧
    (getAttr pGrp.rest k = some v → truthy pGrp.title = true →
      RNode.forwards k v (MenuGroup styles pGrp) = true) ∧
    (getAttr pOptGrp.rest k = some v → truthy pOptGrp.title = true →
      attrsHasKey injected k = false →
      RNode.forwards k v (MenuOptionGroup styles injected pOptGrp) = true) ∧
    (getAttr pDiv.rest k = some v →
      RNode.forwards k v (MenuDivider styles pDiv) = true) := by
  refine ⟨?_, ?_, ?_, ?_, ?_, ?_, ?_, ?_, ?_, ?_⟩
  · intro h
    exact forwards_of_getAttr h
  · intro h hCls hinj
    obtain ⟨cls, ch, asC, rest⟩ := pBtn
    have h' : getAttr rest k = some v := by simpa using h
    cases asC with
    | none =>
        apply forwards_of_getAttr
        rw [getAttr_append_cls_left hCls]
        simp only [useMenuButton]
        rw [getAttr_append_left hinj,
          getAttr_append_left (attrsHasKey_clsAttr (beq_eq_false_iff_ne.mpr (Ne.symm hCls)))]
        exact h'
    | some tag =>
        apply forwards_of_getAttr
        rw [getAttr_append_cls_left hCls]
        simp only [useMenuButton]
        rw [getAttr_append_left hinj,
          getAttr_append_left (attrsHasKey_clsAttr (beq_eq_false_iff_ne.mpr (Ne.symm hCls)))]
        exact h'
  · intro h hinj hOn hCls hVar hInit hAnim
    obtain ⟨cls, ch, rest⟩ := pList
    have h' : getAttr rest k = some v := by simpa using h
    apply forwards_child
    apply listForwards_head
    apply forwards_of_getAttr
    simp only [useMenuList]
    rw [getAttr_motion_tail_left hOn hCls hVar hInit hAnim, getAttr_append_left hinj,
      getAttr_append_left (attrsHasKey_clsAttr (beq_eq_false_iff_ne.mpr (Ne.symm hCls)))]
    exact h'
  · intro h hCls hTy hAs hinj hIcon
    obtain ⟨icon, isp, cmd, cls, ch, rest⟩ := pItem
    have h' : getAttr rest k = some v := by simpa using h
    cases icon with
    | none =>
        refine ⟨_, rfl, ?_⟩
        apply forwards_of_getAttr
        apply getAttr_append_right
        rw [getAttr_filter_other (beq_eq_false_iff_ne.mpr hAs),
          getAttr_filter_other (beq_eq_false_iff_ne.mpr hTy),
          getAttr_append_cls_left hCls]
        simp only [useMenuItem]
        rw [getAttr_append_left hinj,
          getAttr_append_left (attrsHasKey_clsAttr (beq_eq_false_iff_ne.mpr (Ne.symm hCls)))]
        exact h'
    | some i =>
        have hv := hIcon i rfl
        cases i with
        | elem tag a c cs =>
            refine ⟨_, rfl, ?_⟩
            apply forwards_of_getAttr
            apply getAttr_append_right
            rw [getAttr_filter_other (beq_eq_false_iff_ne.mpr hAs),
              getAttr_filter_other (beq_eq_false_iff_ne.mpr hTy),
              getAttr_append_cls_left hCls]
            simp only [useMenuItem]
            rw [getAttr_append_left hinj,
              getAttr_append_left (attrsHasKey_clsAttr (beq_eq_false_iff_ne.mpr (Ne.symm hCls)))]
            exact h'
        | text v2 => simp [isValidElement] at hv
        | provider n cs => simp [isValidElement] at hv
  · intro h hCls hTy hAs hinj hIcon
    obtain ⟨icon, isp, chk, cls, ch, rest⟩ := pOpt
    have h' : getAttr rest k = some v := by simpa using h
    cases icon with
    | none =>
        refine ⟨_, rfl, ?_⟩
        apply forwards_of_getAttr
        apply getAttr_append_right
        rw [getAttr_filter_other (beq_eq_false_iff_ne.mpr hAs),
          getAttr_filter_other (beq_eq_false_iff_ne.mpr hTy),
          getAttr_append_cls_left hCls]
        simp only [useMenuOption]
        rw [getAttr_append_left hinj,
          getAttr_append_left (attrsHasKey_clsAttr (beq_eq_false_iff_ne.mpr (Ne.symm hCls)))]
        exact h'
    | some i =>
        have hv := hIcon i rfl
        cases i with
        | elem tag a c cs =>
            refine ⟨_, rfl, ?_⟩
            apply forwards_of_getAttr
            apply getAttr_append_right
            rw [getAttr_filter_other (beq_eq_false_iff_ne.mpr hAs),
              getAttr_filter_other (beq_eq_false_iff_ne.mpr hTy),
              getAttr_append_cls_left hCls]
            simp only [useMenuOption]
            rw [getAttr_append_left hinj,
              getAttr_append_left (attrsHasKey_clsAttr (beq_eq_false_iff_ne.mpr (Ne.symm hCls)))]
            exact h'
        | text v2 => simp [isValidElement] at hv
        | provider n cs => simp [isValidElement] at hv
  · intro h hCls
    obtain ⟨cls, ch, rest⟩ := pCmd
    have h' : getAttr rest k = some v := by simpa using h
    apply forwards_of_getAttr
    rw [getAttr_append_cls_left hCls,
      getAttr_append_left (attrsHasKey_clsAttr (beq_eq_false_iff_ne.mpr (Ne.symm hCls)))]
    exact h'
  · intro h t ht
    obtain ⟨cls, ch, rest⟩ := pIcon
    have h' : getAttr rest k = some v := by simpa using h
    match ch, ht with
    | [c], ht =>
        cases c with
        | elem tag a cc cs =>
            have hS := (Except.ok.inj ht).symm
            subst hS
            apply forwards_of_getAttr
            exact getAttr_append_right h'
        | text v2 => exact Except.noConfusion ht
        | provider n cs => exact Except.noConfusion ht
    | [], ht => exact Except.noConfusion ht
    | c1 :: c2 :: cs, ht => exact Except.noConfusion ht
  · intro h ht
    obtain ⟨title, cls, ch, rest⟩ := pGrp
    have h' : getAttr rest k = some v := by simpa using h
    have ht' : truthy title = true := by simpa using ht
    apply forwards_child
    simp only [ht', if_true]
    apply listForwards_head
    apply forwards_of_getAttr
    exact getAttr_append_right h'
  · intro h ht hinj
    obtain ⟨title, cls, ch, rest⟩ := pOptGrp
    have h' : getAttr rest k = some v := by simpa using h
    have ht' : truthy title = true := by simpa using ht
    apply forwards_child
    simp only [MenuOptionGroup, useMenuOptionGroup, MenuGroup, ht', if_true]
    apply listForwards_head
    apply forwards_of_getAttr
    apply getAttr_append_right
    rw [getAttr_append_left hinj]
    exact h'
  · intro h
    obtain ⟨cls, rest⟩ := pDiv
    have h' : getAttr rest k = some v := by simpa using h
    apply forwards_of_getAttr
    exact getAttr_append_right h'

/-- C1, witness: the amended forwarding theorem applied at concrete inputs for MenuButton and a titled MenuGroup. -/
theorem standard_attrs_forwarded_witness :
    RNode.forwards ("data-x") (AVal.s ("1"))
      (MenuButton { } [] { rest := [(("data-x"), AVal.s ("1"))] }) = true ∧
    RNode.forwards ("data-x") (AVal.s ("1"))
      (MenuGroup { } { title := some ("T"), rest := [(("data-x"), AVal.s ("1"))] }) = true := by
  constructor
  · exact (standard_attrs_forwarded_except_titleless_group { } [] [] { } ("data-x")
      (AVal.s ("1")) [] [] { rest := [(("data-x"), AVal.s ("1"))] } { } { } { } { } { }
      { } { } { }).2.1 rfl (by decide) rfl
  · exact (standard_attrs_forwarded_except_titleless_group { } [] [] { } ("data-x")
      (AVal.s ("1")) [] [] { } { } { } { } { } { } { }
      { title := some ("T"), rest := [(("data-x"), AVal.s ("1"))] } { }).2.2.2.2.2.2.2.1
      rfl rfl

/-- C2, counterexample: MenuGroup writes a literal role=\"group\" in this file: with no caller props at all the rendered output carries a role attribute. -/
theorem menuGroup_writes_literal_role :
    attrsHasKey (({ } : MenuGroupProps).rest) ("role") = false ∧
    getAttrS ((MenuGroup { } { }).attrsOf) ("role") = some ("group") ∧
    RNode.hasKey ("role") (MenuGroup { } { }) = true :=
  ⟨rfl, rfl, rfl⟩

/-- C2 (amended): for every component except MenuGroup and MenuDivider, the rendered output contains no role attribute unless one comes in through the caller props or the use-menu hook results; MenuGroup writes the literal role=\"group\" and MenuDivider the literal role=\"separator\" in this file itself. -/
theorem roles_only_from_hooks_except_group_divider (styles : MenuStyles)
    (ctx : MenuContext) (injected injPositioner : Attrs)
    (pBtn : MenuButtonProps) (pList : MenuListProps) (pItem : MenuItemProps)
    (pOpt : MenuItemOptionProps) (pCmd : MenuCommandProps) (pIcon : MenuIconProps)
    (pOptGrp : MenuOptionGroupProps) (pGrp : MenuGroupProps) (pDiv : MenuDividerProps)
    (ns : List RNode) :
    (RNode.listHasKey ("role") ns = false →
      RNode.hasKey ("role") (Menu ctx (MaybeRenderProp.nodes ns)) = false) ∧
    (attrsHasKey pBtn.rest ("role") = false → attrsHasKey injected ("role") = false →
      RNode.listHasKey ("role") pBtn.children = false →
      RNode.hasKey ("role") (MenuButton styles injected pBtn) = false) ∧
    (attrsHasKey pList.rest ("role") = false → attrsHasKey injected ("role") = false →
      attrsHasKey injPositioner ("role") = false →
      RNode.listHasKey ("role") pList.children = false →
      RNode.hasKey ("role") (MenuList styles ctx injected injPositioner pList) = false) ∧
    (attrsHasKey pItem.rest ("role") = false → attrsHasKey injected ("role") = false →
      RNode.listHasKey ("role") pItem.children = false →
      (∀ i, pItem.icon = some i → isValidElement i = true ∧ RNode.hasKey ("role") i = false) →
      ∃ t, MenuItem styles injected pItem = Except.ok t ∧
        RNode.hasKey ("role") t = false) ∧
    (attrsHasKey pOpt.rest ("role") = false → attrsHasKey injected ("role") = false →
      RNode.listHasKey ("role") pOpt.children = false →
      (∀ i, pOpt.icon = some i → isValidElement i = true ∧ RNode.hasKey ("role") i = false) →
      ∃ t, MenuItemOption styles injected pOpt = Except.ok t ∧
        RNode.hasKey ("role") t = false) ∧
    (attrsHasKey pCmd.rest ("role") = false →
      RNode.listHasKey ("role") pCmd.children = false →
      RNode.hasKey ("role") (MenuCommand styles pCmd) = false) ∧
    (attrsHasKey pIcon.rest ("role") = false →
      (∀ i ∈ pIcon.children, RNode.hasKey ("role") i = false) →
      ∀ t, MenuIcon pIcon = Except.ok t → RNode.hasKey ("role") t = false) ∧
    getAttrS ((MenuOptionGroup styles injected pOptGrp).attrsOf) ("role") = some ("group") ∧
    getAttrS ((MenuGroup styles pGrp).attrsOf) ("role") = some ("group") ∧
    (attrsHasKey pDiv.rest ("role") = false →
      getAttrS ((MenuDivider styles pDiv).attrsOf) ("role") = some ("separator")) := by
  refine ⟨?_, ?_, ?_, ?_, ?_, ?_, ?_, ?_, ?_, ?_⟩
  · intro hns
    simp [Menu, runIfFn, RNode.hasKey, RNode.listHasKey, hns]
  · intro h1 h2 h3
    obtain ⟨cls, ch, asC, rest⟩ := pBtn
    cases asC with
    | none =>
        simp [MenuButton, StyledMenuButton, useMenuButton, menuButtonInnerSpan,
          RNode.hasKey, RNode.listHasKey, attrsHasKey_append, attrsHasKey_clsAttr,
          attrsHasKey_cons, attrsHasKey_nil, h1, h2, h3]
    | some tag =>
        simp [MenuButton, useMenuButton, menuButtonInnerSpan,
          RNode.hasKey, RNode.listHasKey, attrsHasKey_append, attrsHasKey_clsAttr,
          attrsHasKey_cons, attrsHasKey_nil, h1, h2, h3]
  · intro h1 h2 h3 h4
    obtain ⟨cls, ch, rest⟩ := pList
    simp [MenuList, useMenuList, useMenuPositioner, RNode.hasKey, RNode.listHasKey,
      attrsHasKey_append, attrsHasKey_clsAttr, attrsHasKey_cons, attrsHasKey_nil,
      h1, h2, h3, h4]
  · intro h1 h2 h3 h4
    obtain ⟨icon, isp, cmd, cls, ch, rest⟩ := pItem
    have h1' : attrsHasKey rest ("role") = false := by simpa using h1
    have h3' : RNode.listHasKey ("role") ch = false := by simpa using h3
    cases icon with
    | none =>
        refine ⟨_, rfl, ?_⟩
        cases hcmd : truthy cmd <;>
          simp [StyledMenuItem, MenuCommand, menuItemWrapSpan, useMenuItem,
            RNode.hasKey, RNode.listHasKey, listHasKey_append, attrsHasKey_append,
            attrsHasKey_clsAttr, attrsHasKey_filter_of_false, attrsHasKey_typeBinding,
            attrsHasKey_cons, attrsHasKey_nil, h1', h2, h3', hcmd]
    | some i =>
        obtain ⟨hv, hr⟩ := h4 i rfl
        cases i with
        | elem tag a c cs =>
            simp only [RNode.hasKey, Bool.or_eq_false_iff] at hr
            refine ⟨_, rfl, ?_⟩
            cases hcmd : truthy cmd <;>
              simp [StyledMenuItem, MenuCommand, menuItemWrapSpan, useMenuItem, MenuIcon,
                cloneWithIconProps, Children.only, isValidElement,
                RNode.hasKey, RNode.listHasKey, listHasKey_append, attrsHasKey_append,
                attrsHasKey_clsAttr, attrsHasKey_filter_of_false, attrsHasKey_typeBinding,
                attrsHasKey_cons, attrsHasKey_nil, h1', h2, h3', hr.1, hr.2, hcmd]
        | text v => simp [isValidElement] at hv
        | provider n cs => simp [isValidElement] at hv
  · intro h1 h2 h3 h4
    obtain ⟨icon, isp, chk, cls, ch, rest⟩ := pOpt
    have h1' : attrsHasKey rest ("role") = false := by simpa using h1
    have h3' : RNode.listHasKey ("role") ch = false := by simpa using h3
    cases icon with
    | none =>
        refine ⟨_, rfl, ?_⟩
        simp [StyledMenuItem, MenuIcon, CheckIcon, Children.only, isValidElement,
          cloneWithIconProps, useMenuOption, checkIconPoints,
          RNode.hasKey, RNode.listHasKey, listHasKey_append, attrsHasKey_append,
          attrsHasKey_clsAttr, attrsHasKey_filter_of_false, attrsHasKey_typeBinding,
          attrsHasKey_cons, attrsHasKey_nil, h1', h2, h3']
    | some i =>
        obtain ⟨hv, hr⟩ := h4 i rfl
        cases i with
        | elem tag a c cs =>
            simp only [RNode.hasKey, Bool.or_eq_false_iff] at hr
            refine ⟨_, rfl, ?_⟩
            simp [StyledMenuItem, MenuIcon, Children.only, isValidElement,
              cloneWithIconProps, useMenuOption,
              RNode.hasKey, RNode.listHasKey, listHasKey_append, attrsHasKey_append,
              attrsHasKey_clsAttr, attrsHasKey_filter_of_false, attrsHasKey_typeBinding,
              attrsHasKey_cons, attrsHasKey_nil, h1', h2, h3', hr.1, hr.2]
        | text v => simp [isValidElement] at hv
        | provider n cs => simp [isValidElement] at hv
  · intro h1 h2
    obtain ⟨cls, ch, rest⟩ := pCmd
    simp [MenuCommand, RNode.hasKey, RNode.listHasKey, attrsHasKey_append,
      attrsHasKey_clsAttr, attrsHasKey_cons, attrsHasKey_nil, h1, h2]
  · intro h1 h2 t ht
    obtain ⟨cls, ch, rest⟩ := pIcon
    match ch, h2, ht with
    | [c], h2, ht =>
        cases c with
        | elem tag a cc cs =>
            have hc := h2 (RNode.elem tag a cc cs) (by simp)
            simp only [RNode.hasKey, Bool.or_eq_false_iff] at hc
            have hS := (Except.ok.inj ht).symm
            subst hS
            simp [cloneWithIconProps, RNode.hasKey, RNode.listHasKey, attrsHasKey_append,
              attrsHasKey_cons, attrsHasKey_nil, attrsHasKey_clsAttr, h1, hc.1, hc.2]
        | text v => exact Except.noConfusion ht
        | provider n cs => exact Except.noConfusion ht
    | [], _, ht => exact Except.noConfusion ht
    | c1 :: c2 :: cs, _, ht => exact Except.noConfusion ht
  · rfl
  · rfl
  · intro h1
    obtain ⟨cls, rest⟩ := pDiv
    simp only [MenuDivider, RNode.attrsOf, getAttrS]
    rw [getAttr_append_left h1]
    rfl

/-- C2, witness: the amended role theorem applied to MenuCommand at concrete input. -/
theorem roles_only_witness :
    RNode.hasKey ("role") (MenuCommand { } { children := [RNode.text ("x")] }) = false :=
  (roles_only_from_hooks_except_group_divider { } { } [] [] { } { } { } { }
    { children := [RNode.text ("x")] } { } { } { } { } []).2.2.2.2.2.1 rfl rfl

/-- C3, counterexample: rendering MenuIcon does not succeed for every children value: with zero children (or two) React.Children.only throws. -/
theorem menuIcon_error_on_empty_children :
    MenuIcon { } = Except.error reactOnlyError ∧
    MenuIcon { children := [CheckIcon [], CheckIcon []] } = Except.error reactOnlyError :=
  ⟨rfl, rfl⟩

/-- C3 (amended): the only rendering error raised from this file is React.Children.only inside MenuIcon: MenuIcon succeeds exactly when its children are a single valid element, and MenuItem/MenuItemOption succeed exactly when their optional icon is a valid element (always, given the ReactElement prop type). -/
theorem rendering_errors_only_from_children_only (pIc : MenuIconProps) (styles : MenuStyles)
    (injected : Attrs) (pItem : MenuItemProps) (pOpt : MenuItemOptionProps) :
    (MenuIcon pIc).isOk = (match pIc.children with
      | [c] => isValidElement c
      | _ => false) ∧
    (MenuItem styles injected pItem).isOk = (match pItem.icon with
      | some i => isValidElement i
      | none => true) ∧
    (MenuItemOption styles injected pOpt).isOk = (match pOpt.icon with
      | some i => isValidElement i
      | none => true) := by
  refine ⟨?_, ?_, ?_⟩
  · obtain ⟨c, ch, r⟩ := pIc
    match ch with
    | [] => rfl
    | [c1] => cases c1 <;> rfl
    | c1 :: c2 :: cs => rfl
  · obtain ⟨icon, isp, cmd, cls, ch, rest⟩ := pItem
    cases icon with
    | none => rfl
    | some i => cases i <;> rfl
  · obtain ⟨icon, isp, chk, cls, ch, rest⟩ := pOpt
    cases icon with
    | none => rfl
    | some i => cases i <;> rfl

/-- C4, counterexample: with command=\"\" (a provided command prop that is falsy in JS) MenuItem renders its children unwrapped, so the wrap does not happen exactly when an icon or command prop is provided. -/
theorem menuItem_empty_command_not_wrapped :
    ({ command := some (""), children := [RNode.text ("x")] } : MenuItemProps).command.isSome
      = true ∧
    MenuItem { } [] { command := some (""), children := [RNode.text ("x")] } =
      Except.ok (RNode.elem ("button")
        [(("type"), AVal.s ("button")), (("className"), AVal.s ("chakra-menu__menuitem"))]
        styledMenuItemBaseCss [RNode.text ("x")]) :=
  ⟨rfl, rfl⟩

/-- C4 (amended): MenuItem wraps its children in the pointer-events-none flex span exactly when an icon is provided or the command prop is truthy (nonempty); otherwise the children are rendered into the styled item unwrapped, with no icon or command parts. -/
theorem menuItem_wraps_on_truthy_icon_or_command (styles : MenuStyles) (injected : Attrs)
    (p : MenuItemProps) (h : ∀ i, p.icon = some i → isValidElement i = true) :
    ∃ attrs iconPart commandPart,
      MenuItem styles injected p = Except.ok (StyledMenuItem styles attrs
        (iconPart ++
          (if p.icon.isSome || truthy p.command then [menuItemWrapSpan p.children]
           else p.children) ++ commandPart)) ∧
      ((p.icon.isSome || truthy p.command) = false → iconPart = [] ∧ commandPart = []) := by
  obtain ⟨icon, isp, cmd, cls, ch, rest⟩ := p
  cases icon with
  | none =>
      refine ⟨_, [], (if truthy cmd then
        [MenuCommand styles { children := [RNode.text (cmd.getD (""))] }] else []), rfl, ?_⟩
      intro hf
      have hc : truthy cmd = false := by simpa using hf
      simp [hc]
  | some i =>
      have hv := h i rfl
      cases i with
      | elem tag a c cs =>
          refine ⟨_, _, _, rfl, ?_⟩
          intro hf
          simp at hf
      | text v => simp [isValidElement] at hv
      | provider n cs => simp [isValidElement] at hv

/-- C4, witness: the amended wrapping theorem applied at a concrete nonempty command. -/
theorem menuItem_wraps_witness :
    ∃ attrs iconPart commandPart,
      MenuItem { } [] { command := some ("K"), children := [RNode.text ("x")] } =
        Except.ok (StyledMenuItem { } attrs
          (iconPart ++ [menuItemWrapSpan [RNode.text ("x")]] ++ commandPart)) := by
  obtain ⟨a, ip, cp, heq, -⟩ :=
    menuItem_wraps_on_truthy_icon_or_command { } []
      { command := some ("K"), children := [RNode.text ("x")] }
      (fun i hi => Option.noConfusion hi)
  refine ⟨a, ip, cp, ?_⟩
  simpa using heq

/-- C5: MenuList renders the framer-motion element with animate equal to the enter variant name exactly when the menu context is open and the exit variant name otherwise, with initial animation disabled and the motionVariants variant set attached. -/
theorem menuList_animate_variant (styles : MenuStyles) (ctx : MenuContext)
    (injList injPositioner : Attrs) (p : MenuListProps) :
    ∃ motionAttrs cs,
      MenuList styles ctx injList injPositioner p =
        RNode.elem ("div") (useMenuPositioner injPositioner) (zIndexCss styles)
          [RNode.elem ("motion.div") motionAttrs ([(("outline"), AVal.num 0)] ++ styles.list) cs] ∧
      getAttr motionAttrs ("animate") =
        some (AVal.s (if ctx.isOpen then ("enter") else ("exit"))) ∧
      getAttr motionAttrs ("initial") = some (AVal.b false) ∧
      getAttr motionAttrs ("variants") = some (AVal.s ("motionVariants")) ∧
      ((if ctx.isOpen then ("enter") else ("exit")) = ("enter") ↔ ctx.isOpen = true) ∧
      motionVariants.map Prod.fst = [("enter"), ("exit")] := by
  refine ⟨_, _, rfl, getAttr_append_right rfl, getAttr_append_right rfl,
    getAttr_append_right rfl, ?_, rfl⟩
  cases h : ctx.isOpen <;> simp

/-- C6, counterexample: MenuCommand sets its literal class after spreading the props, so the caller's className is overridden rather than concatenated. -/
theorem menuCommand_overrides_caller_className :
    getAttrS ((MenuCommand { } { className := some ("custom") }).attrsOf) ("className") =
      some ("chakra-menu__command") ∧
    ¬ some ("chakra-menu__command") =
      some (cx [some ("chakra-menu__command"), some ("custom")]) :=
  ⟨rfl, by decide⟩

/-- C6 (amended): each classed component renders the concatenation of its fixed chakra-menu__* class with the caller's className (MenuButton, MenuList, MenuItem, MenuItemOption, MenuIcon, MenuDivider, and MenuGroup's title when present), except MenuCommand, which always renders exactly its fixed class and drops the caller's. -/
theorem classNames_concatenated (styles : MenuStyles) (injected : Attrs)
    (pBtn : MenuButtonProps) (pList : MenuListProps) (pItem : MenuItemProps)
    (pOpt : MenuItemOptionProps) (pCmd : MenuCommandProps) (pIcon : MenuIconProps)
    (pGrp : MenuGroupProps) (pDiv : MenuDividerProps) (ctx : MenuContext)
    (injPositioner : Attrs) :
    getAttrS ((MenuButton styles injected pBtn).attrsOf) ("className") =
      some (cx [some ("chakra-menu__menu-button"), pBtn.className]) ∧
    (attrsHasKey pList.rest ("className") = false →
      attrsHasKey injected ("className") = false →
      ∃ A cs, MenuList styles ctx injected injPositioner pList =
        RNode.elem ("div") (useMenuPositioner injPositioner) (zIndexCss styles)
          [RNode.elem ("motion.div") A ([(("outline"), AVal.num 0)] ++ styles.list) cs] ∧
        getAttrS A ("className") =
          some (cx [some ("chakra-menu__menu-list"), pList.className])) ∧
    (attrsHasKey pItem.rest ("className") = false →
      attrsHasKey injected ("className") = false →
      (∀ i, pItem.icon = some i → isValidElement i = true) →
      ∃ t, MenuItem styles injected pItem = Except.ok t ∧
        getAttrS t.attrsOf ("className") =
          some (cx [some ("chakra-menu__menuitem"), pItem.className])) ∧
    ((∀ i, pOpt.icon = some i → isValidElement i = true) →
      ∃ t, MenuItemOption styles injected pOpt = Except.ok t ∧
        getAttrS t.attrsOf ("className") =
          some (cx [some ("chakra-menu__menuitem-option"), pOpt.className])) ∧
    getAttrS ((MenuCommand styles pCmd).attrsOf) ("className") =
      some ("chakra-menu__command") ∧
    (attrsHasKey pIcon.rest ("className") = false →
      ∀ t, MenuIcon pIcon = Except.ok t →
        getAttrS t.attrsOf ("className") =
          some (cx [some ("chakra-menu__icon-wrapper"), pIcon.className])) ∧
    (attrsHasKey pDiv.rest ("className") = false →
      getAttrS ((MenuDivider styles pDiv).attrsOf) ("className") =
        some (cx [some ("chakra-menu__divider"), pDiv.className])) ∧
    (truthy pGrp.title = true → attrsHasKey pGrp.rest ("className") = false →
      getAttrS (((MenuGroup styles pGrp).childrenOf.headD (RNode.text (""))).attrsOf)
          ("className") =
        some (cx [some ("chakra-menu__group__title"), pGrp.className])) := by
  refine ⟨?_, ?_, ?_, ?_, ?_, ?_, ?_, ?_⟩
  · obtain ⟨cls, ch, asC, rest⟩ := pBtn
    cases asC with
    | none =>
        simp only [MenuButton, StyledMenuButton, RNode.attrsOf]
        exact getAttrS_append_cls
    | some tag =>
        simp only [MenuButton, RNode.attrsOf]
        exact getAttrS_append_cls
  · intro h1 h2
    obtain ⟨cls, ch, rest⟩ := pList
    have h1' : attrsHasKey rest ("className") = false := by simpa using h1
    have hX : getAttrS ((rest ++ clsAttr cls) ++ injected) ("className") = cls :=
      getAttrS_rest_cls h1' h2
    refine ⟨_, _, rfl, ?_⟩
    simp only [useMenuList]
    rw [getAttrS_motion_tail, hX]
  · intro h1 h2 hIcon
    obtain ⟨icon, isp, cmd, cls, ch, rest⟩ := pItem
    have h1' : attrsHasKey rest ("className") = false := by simpa using h1
    have hX : getAttrS ((rest ++ clsAttr cls) ++ injected) ("className") = cls :=
      getAttrS_rest_cls h1' h2
    cases icon with
    | none =>
        refine ⟨_, rfl, ?_⟩
        simp only [StyledMenuItem, RNode.attrsOf, getAttrS, useMenuItem]
        rw [getAttr_styled_attrs getAttr_append_cls rfl rfl]
        simp only [getAttrS] at hX
        rw [hX]
    | some i =>
        have hv := hIcon i rfl
        cases i with
        | elem tag a c cs =>
            refine ⟨_, rfl, ?_⟩
            simp only [StyledMenuItem, RNode.attrsOf, getAttrS, useMenuItem]
            rw [getAttr_styled_attrs getAttr_append_cls rfl rfl]
            simp only [getAttrS] at hX
            rw [hX]
        | text v => simp [isValidElement] at hv
        | provider n cs => simp [isValidElement] at hv
  · intro hIcon
    obtain ⟨icon, isp, chk, cls, ch, rest⟩ := pOpt
    cases icon with
    | none =>
        refine ⟨_, rfl, ?_⟩
        simp only [StyledMenuItem, RNode.attrsOf, getAttrS, useMenuOption]
        rw [getAttr_styled_attrs getAttr_append_cls rfl rfl]
    | some i =>
        have hv := hIcon i rfl
        cases i with
        | elem tag a c cs =>
            refine ⟨_, rfl, ?_⟩
            simp only [StyledMenuItem, RNode.attrsOf, getAttrS, useMenuOption]
            rw [getAttr_styled_attrs getAttr_append_cls rfl rfl]
        | text v => simp [isValidElement] at hv
        | provider n cs => simp [isValidElement] at hv
  · obtain ⟨cls, ch, rest⟩ := pCmd
    simp only [MenuCommand, RNode.attrsOf]
    exact getAttrS_append_cls
  · intro h1 t ht
    obtain ⟨cls, ch, rest⟩ := pIcon
    have h1' : attrsHasKey rest ("className") = false := by simpa using h1
    match ch, ht with
    | [c], ht =>
        cases c with
        | elem tag a cc cs =>
            have hS := (Except.ok.inj ht).symm
            subst hS
            simp only [RNode.attrsOf]
            exact getAttrS_cons_cls h1'
        | text v => exact Except.noConfusion ht
        | provider n cs => exact Except.noConfusion ht
    | [], ht => exact Except.noConfusion ht
    | c1 :: c2 :: cs, ht => exact Except.noConfusion ht
  · intro h1
    obtain ⟨cls, rest⟩ := pDiv
    have h1' : attrsHasKey rest ("className") = false := by simpa using h1
    simp only [MenuDivider, RNode.attrsOf, getAttrS]
    rw [getAttr_append_left h1']
    rfl
  · intro ht h1
    obtain ⟨title, cls, ch, rest⟩ := pGrp
    have ht' : truthy title = true := by simpa using ht
    have h1' : attrsHasKey rest ("className") = false := by simpa using h1
    simp only [MenuGroup, RNode.childrenOf, ht', if_true]
    simp only [List.singleton_append, List.headD_cons, RNode.attrsOf, getAttrS]
    rw [show ((("className"),
        AVal.s (cx [some ("chakra-menu__group__title"), cls])) :: rest)
        = [(("className"),
            AVal.s (cx [some ("chakra-menu__group__title"), cls]))] ++ rest from rfl]
    rw [getAttr_append_left h1']
    rfl

/-- C6, witness: the className theorem applied to MenuDivider at a concrete className. -/
theorem classNames_concatenated_witness :
    getAttrS ((MenuDivider { } { className := some ("extra") }).attrsOf) ("className") =
      some ("chakra-menu__divider extra") :=
  (classNames_concatenated { } [] { } { } { } { } { } { }
    { } { className := some ("extra") } { } []).2.2.2.2.2.2.1 rfl

/-- C7: the file exposes a component for each listed element kind: Menu (container), MenuButton, MenuList, MenuItem, MenuItemOption (checkable item), MenuOptionGroup, MenuGroup, MenuDivider, MenuCommand and MenuIcon, each producing its characteristic rendered output. -/
theorem file_exposes_all_nine_components :
    Menu { } (MaybeRenderProp.nodes []) =
      RNode.provider ("MenuProvider") [RNode.provider ("StylesProvider") []] ∧
    (MenuButton { } [] { }).tagOf = ("button") ∧
    getAttrS ((MenuButton { } [] { }).attrsOf) ("className") =
      some ("chakra-menu__menu-button") ∧
    (MenuList { } { } [] [] { }).tagOf = ("div") ∧
    (MenuList { } { } [] [] { }).childrenOf.map RNode.tagOf = [("motion.div")] ∧
    (∃ t, MenuItem { } [] { } = Except.ok t ∧
      getAttrS t.attrsOf ("className") = some ("chakra-menu__menuitem")) ∧
    (∃ t, MenuItemOption { } [] { } = Except.ok t ∧
      getAttrS t.attrsOf ("className") = some ("chakra-menu__menuitem-option")) ∧
    getAttrS (((MenuOptionGroup { } [] { title := some ("g") }).childrenOf.headD
      (RNode.text (""))).attrsOf) ("className") =
      some ("chakra-menu__group__title chakra-menu__option-group") ∧
    getAttrS ((MenuGroup { } { }).attrsOf) ("className") = some ("chakra-menu__group") ∧
    (MenuDivider { } { }).tagOf = ("hr") ∧
    getAttrS ((MenuDivider { } { }).attrsOf) ("role") = some ("separator") ∧
    getAttrS ((MenuCommand { } { }).attrsOf) ("className") = some ("chakra-menu__command") ∧
    (∃ t, MenuIcon { children := [CheckIcon []] } = Except.ok t ∧
      getAttrS t.attrsOf ("className") = some ("chakra-menu__icon-wrapper")) :=
  ⟨rfl, rfl, rfl, rfl, rfl, ⟨_, rfl, rfl⟩, ⟨_, rfl, rfl⟩, rfl, rfl, rfl, rfl, rfl,
    ⟨_, rfl, rfl⟩⟩

/-- C8: StyledMenuItem renders type=\"button\" whenever no as component is given, regardless of any type prop; given an as component, the type attribute equals the supplied type prop and is absent when none is supplied. -/
theorem styledMenuItem_type_attribute (styles : MenuStyles) (props : Attrs)
    (children : List RNode) :
    (getAttrS props ("as") = none →
      getAttr ((StyledMenuItem styles props children).attrsOf) ("type") =
        some (AVal.s ("button"))) ∧
    (∀ t, ¬ t = ("") → getAttrS props ("as") = some t →
      getAttr ((StyledMenuItem styles props children).attrsOf) ("type") =
        (getAttrS props ("type")).map AVal.s) := by
  have hfa : getAttrS (props.filter (fun q => !(q.1 == ("type")))) ("as")
      = getAttrS props ("as") := getAttrS_filter_other rfl
  have hkeyfree : attrsHasKey
      ((props.filter (fun q => !(q.1 == ("type")))).filter (fun q => !(q.1 == ("as"))))
      ("type") = false :=
    attrsHasKey_filter_of_false attrsHasKey_filter_not
  constructor
  · intro hAs
    simp only [StyledMenuItem, RNode.attrsOf]
    rw [hfa, hAs]
    rw [getAttr_append_left hkeyfree]
    rfl
  · intro t ht hAs
    have ht' : (t == ("")) = false := beq_eq_false_iff_ne.mpr ht
    simp only [StyledMenuItem, RNode.attrsOf]
    rw [hfa, hAs]
    simp only [asTruthiness, ht', Bool.not_false, if_true]
    cases hty : getAttrS props ("type") with
    | none => exact getAttr_none_of_no_key hkeyfree
    | some u =>
        rw [getAttr_append_left hkeyfree]
        rfl

/-- C8, witness: the type-attribute theorem applied with no as prop and with as plus an explicit type. -/
theorem styledMenuItem_type_witness :
    getAttr ((StyledMenuItem { } [(("id"), AVal.s ("a"))] []).attrsOf) ("type") =
      some (AVal.s ("button")) ∧
    getAttr ((StyledMenuItem { }
      [(("as"), AVal.s ("a")), (("type"), AVal.s ("submit"))] []).attrsOf) ("type") =
      some (AVal.s ("submit")) := by
  constructor
  · exact (styledMenuItem_type_attribute { } [(("id"), AVal.s ("a"))] []).1 rfl
  · exact (styledMenuItem_type_attribute { }
      [(("as"), AVal.s ("a")), (("type"), AVal.s ("submit"))] []).2 ("a") (by decide) rfl

/-- C9: MenuItemOption always renders the MenuIcon wrapper before its label span, with opacity 1 when isChecked and 0 otherwise, containing the caller's icon if provided and the built-in CheckIcon otherwise (cloned with the icon props), so the check-mark element is present even when unchecked. -/
theorem menuItemOption_always_renders_icon (styles : MenuStyles) (injected : Attrs)
    (p : MenuItemOptionProps) (h : ∀ i, p.icon = some i → isValidElement i = true) :
    ∃ attrs, MenuItemOption styles injected p = Except.ok (StyledMenuItem styles attrs
      [RNode.elem ("span")
        [(("className"), AVal.s ("chakra-menu__icon-wrapper")),
         (("fontSize"), AVal.s ("0.8em")),
         (("marginEnd"), p.iconSpacing.getD (AVal.s ("0.75rem"))),
         (("opacity"), AVal.num (if p.isChecked then 1 else 0))]
        [(("flexShrink"), AVal.num 0)]
        [cloneWithIconProps (p.icon.getD (CheckIcon []))],
       RNode.elem ("span") [(("flex"), AVal.s ("1"))] [] p.children]) := by
  obtain ⟨icon, isp, chk, cls, ch, rest⟩ := p
  cases icon with
  | none => exact ⟨_, rfl⟩
  | some i =>
      have hv := h i rfl
      cases i with
      | elem tag a c cs => exact ⟨_, rfl⟩
      | text v => simp [isValidElement] at hv
      | provider n cs => simp [isValidElement] at hv

/-- C9, witness: the icon theorem applied at the default (unchecked, no icon) props. -/
theorem menuItemOption_icon_witness :
    ∃ attrs, MenuItemOption { } [] { } = Except.ok (StyledMenuItem { } attrs
      [RNode.elem ("span")
        [(("className"), AVal.s ("chakra-menu__icon-wrapper")),
         (("fontSize"), AVal.s ("0.8em")),
         (("marginEnd"), AVal.s ("0.75rem")),
         (("opacity"), AVal.num 0)]
        [(("flexShrink"), AVal.num 0)]
        [cloneWithIconProps (CheckIcon [])],
       RNode.elem ("span") [(("flex"), AVal.s ("1"))] [] []]) := by
  obtain ⟨a, ha⟩ := menuItemOption_always_renders_icon { } [] { }
    (fun i hi => Option.noConfusion hi)
  exact ⟨a, by simpa using ha⟩

/-- C10: Menu renders no host DOM element of its own: its output is exactly the menu provider wrapping the styles provider wrapping the children, where function children are invoked with the isOpen/onClose/forceUpdate object from the use-menu context and node children are rendered as given. -/
theorem menu_renders_no_host_element (ctx : MenuContext) (children : MaybeRenderProp)
    (ns : List RNode) (f : MenuRenderArg → List RNode) :
    Menu ctx children =
      RNode.provider ("MenuProvider")
        [RNode.provider ("StylesProvider")
          (runIfFn children
            { isOpen := ctx.isOpen, onClose := ctx.onClose, forceUpdate := ctx.forceUpdate })] ∧
    RNode.elemCount (Menu ctx (MaybeRenderProp.nodes ns)) = RNode.listElemCount ns ∧
    Menu ctx (MaybeRenderProp.fn f) =
      RNode.provider ("MenuProvider")
        [RNode.provider ("StylesProvider")
          (f { isOpen := ctx.isOpen, onClose := ctx.onClose, forceUpdate := ctx.forceUpdate })] ∧
    runIfFn (MaybeRenderProp.nodes ns)
      { isOpen := ctx.isOpen, onClose := ctx.onClose, forceUpdate := ctx.forceUpdate } = ns :=
  ⟨rfl, by simp [Menu, runIfFn, RNode.elemCount, RNode.listElemCount], rfl, rfl⟩

end ChakraMenu
